import Mathlib

/-!
Shallow embedding of `src/socket.rs` from the rust-icmp repository.

The source is a thin wrapper around raw libc system calls.  Each system
call is modelled as an oracle: a function from the arguments the wrapper
passes to the response the operating system produces.  The wrapper's own
logic (argument construction, result conversion, the error policy) is
translated literally from the Rust source.  The `compat` module the
source imports (`cvt`, `IntoInner`, `FromInner`) is not part of the
sources provided; those three items are modelled from the spec and each
carries a doc comment saying so.
-/

namespace RustIcmp

/-- Linux value of `libc::AF_INET` (external libc constant). -/
def AF_INET : Int := 2

/-- Linux value of `libc::AF_INET6` (external libc constant). -/
def AF_INET6 : Int := 10

/-- Linux value of `libc::SOCK_RAW` (external libc constant). -/
def SOCK_RAW : Int := 3

/-- Source constant: `const IPPROTO_ICMP: c_int = 1;` (src/socket.rs line 10). -/
def IPPROTO_ICMP : Int := 1

/-- Linux value of `libc::IPPROTO_IP` (external libc constant). -/
def IPPROTO_IP : Int := 0

/-- Linux value of `libc::IP_TTL` (external libc constant). -/
def IP_TTL : Int := 2

/-- Linux errno for an interrupted system call (EINTR). -/
def EINTR : Nat := 4

/-- Portable IP address value with two variants, as `std::net::IpAddr`.
The payload abstracts the address bits as a natural number. -/
inductive IpAddr where
  | V4 (addr : Nat)
  | V6 (addr : Nat)
deriving DecidableEq, Repr

/-- Native socket-address representation (`libc::sockaddr`): a family tag
`sa_family` plus the address data bytes, abstracted as a natural number. -/
structure sockaddr where
  sa_family : Int
  sa_data : Nat
deriving DecidableEq, Repr

/-- Rust `std::io::Error` as produced by the error-conversion layer: it
carries the originating OS error code. -/
structure IoError where
  code : Nat
deriving DecidableEq, Repr

/-- The kinds of OS error this wrapper distinguishes: the distinguished
interrupted kind (EINTR) used by the receive paths, and everything else. -/
inductive ErrorKind where
  | interrupted
  | other
deriving DecidableEq, Repr

/-- Rust `io::Error::kind()` restricted to what the source inspects: an
error whose OS code is EINTR has kind `Interrupted`. -/
def IoError.kind (e : IoError) : ErrorKind :=
  if e.code = EINTR then ErrorKind.interrupted else ErrorKind.other

/-- Raw outcome of one system call: the raw return value `ret` and the
errno the OS left behind (meaningful when `ret` is the -1 sentinel). -/
structure SysRet where
  ret : Int
  errno : Nat
deriving DecidableEq, Repr

/-- Modelled from the spec: `compat::cvt` (not under src/) inspects a raw
system-call return value and produces either the success value or a typed
error carrying the OS error code (spec section 6, Error conversion). -/
def cvt (r : SysRet) : Except IoError Int :=
  if r.ret = -1 then Except.error { code := r.errno } else Except.ok r.ret

/-- Modelled from the spec: `compat::IntoInner` for `IpAddr` (not under
src/) converts the portable address into the OS's native socket-address
encoding, preserving the full address and encoding the family
(spec section 6, Address representation). -/
def IpAddr.into_inner : IpAddr → sockaddr
  | IpAddr.V4 a => { sa_family := AF_INET, sa_data := a }
  | IpAddr.V6 a => { sa_family := AF_INET6, sa_data := a }

/-- Modelled from the spec: `compat::FromInner` for `IpAddr` (not under
src/) decodes a native socket-address back into the portable
representation, dispatching on the family tag
(spec section 6, Address representation). -/
def IpAddr.from_inner (sa : sockaddr) : IpAddr :=
  if sa.sa_family = AF_INET then IpAddr.V4 sa.sa_data else IpAddr.V6 sa.sa_data

/-- Rust `as usize` on a signed 64-bit return value: two's-complement
truncation into the unsigned 64-bit range. -/
def usizeOfInt (i : Int) : Nat :=
  (i % (2 : Int) ^ 64).toNat

/-- The socket type of src/socket.rs: an owned OS descriptor and the fixed
native peer address recorded at construction. -/
structure IcmpSocket where
  fd : Int
  peer : sockaddr
deriving DecidableEq, Repr

/-- Argument record of one `libc::socket(family, type, protocol)` call. -/
structure SocketCall where
  family : Int
  sockType : Int
  protocol : Int
deriving DecidableEq, Repr

/-- Argument record of one `libc::recv(fd, buf, len, flags)` call (the
buffer pointer is abstracted away; its length is what the wrapper passes). -/
structure RecvCall where
  fd : Int
  len : Nat
  flags : Int
deriving DecidableEq, Repr

/-- Argument record of one `libc::recvfrom` call. -/
structure RecvfromCall where
  fd : Int
  len : Nat
  flags : Int
deriving DecidableEq, Repr

/-- Outcome of one `libc::recvfrom` call: raw return value, errno, and the
native address the OS wrote into the caller's address slot, if it wrote
one (`none` when the call aborted before writing, e.g. on EINTR). -/
structure RecvfromRet where
  ret : Int
  errno : Nat
  peerWrite : Option sockaddr
deriving DecidableEq, Repr

/-- Argument record of one `libc::sendto` call: descriptor, buffer length,
flags, destination address and its size. -/
structure SendtoCall where
  fd : Int
  len : Nat
  flags : Int
  dest : sockaddr
deriving DecidableEq, Repr

/-- Argument record of one `libc::setsockopt` call (u32 payload). -/
structure SetsockoptCall where
  fd : Int
  level : Int
  optname : Int
  value : Nat
deriving DecidableEq, Repr

/-- Argument record of one `libc::getsockopt` call. -/
structure GetsockoptCall where
  fd : Int
  level : Int
  optname : Int
deriving DecidableEq, Repr

/-- Outcome of one `libc::getsockopt` call: raw return value, errno, and
the option value the OS wrote into the caller's slot, if it wrote one. -/
structure GetsockoptRet where
  ret : Int
  errno : Nat
  wrote : Option Nat
deriving DecidableEq, Repr

/-- Argument record of one `libc::close` call. -/
structure CloseCall where
  fd : Int
deriving DecidableEq, Repr

namespace IcmpSocket

/-- The one `libc::socket` invocation `connect` performs: the family is the
match on the address variant from the source, the type is `SOCK_RAW`, and
the protocol is the source's `IPPROTO_ICMP` constant. -/
def connectCall (addr : IpAddr) : SocketCall :=
  { family :=
      match addr with
      | IpAddr.V4 _ => AF_INET
      | IpAddr.V6 _ => AF_INET6
    sockType := SOCK_RAW
    protocol := IPPROTO_ICMP }

/-- Embedding of `IcmpSocket::connect`: request a raw socket via the
oracle `os`, convert the result with `cvt` (the `?` operator propagates the
error), and on success build the socket from the returned descriptor and
the converted peer address. -/
def connect (addr : IpAddr) (os : SocketCall → SysRet) :
    Except IoError IcmpSocket :=
  match cvt (os (connectCall addr)) with
  | Except.error e => Except.error e
  | Except.ok fd => Except.ok { fd := fd, peer := addr.into_inner }

/-- The one `libc::recv` invocation `recv` performs: the wrapper passes the
buffer length unchanged and flags 0. -/
def recvCall (s : IcmpSocket) (bufLen : Nat) : RecvCall :=
  { fd := s.fd, len := bufLen, flags := 0 }

/-- Embedding of `IcmpSocket::recv`: call `libc::recv` through the oracle,
convert with `cvt`, then apply the source's match: success maps the return
value through `as usize`; an error of the Interrupted kind becomes a
successful 0-byte read; any other error propagates. -/
def recv (s : IcmpSocket) (buf : List Nat) (os : RecvCall → SysRet) :
    Except IoError Nat :=
  match cvt (os (recvCall s buf.length)) with
  | Except.ok size => Except.ok (usizeOfInt size)
  | Except.error err =>
      if err.kind = ErrorKind.interrupted then Except.ok 0
      else Except.error err

/-- The one `libc::recvfrom` invocation `recv_from` performs. -/
def recv_fromCall (s : IcmpSocket) (bufLen : Nat) : RecvfromCall :=
  { fd := s.fd, len := bufLen, flags := 0 }

/-- Embedding of `IcmpSocket::recv_from`.  The source declares the address
slot as `mem::uninitialized()`; the parameter `uninit` is the arbitrary
junk that slot holds.  After the call the slot holds what the OS wrote, or
the junk if the OS wrote nothing.  Success and the interrupted case both
decode the slot with `from_inner`; other errors propagate. -/
def recv_from (s : IcmpSocket) (buf : List Nat) (uninit : sockaddr)
    (os : RecvfromCall → RecvfromRet) : Except IoError (Nat × IpAddr) :=
  let r := os (recv_fromCall s buf.length)
  let peer := r.peerWrite.getD uninit
  match cvt { ret := r.ret, errno := r.errno } with
  | Except.ok size => Except.ok (usizeOfInt size, IpAddr.from_inner peer)
  | Except.error err =>
      if err.kind = ErrorKind.interrupted then
        Except.ok (0, IpAddr.from_inner peer)
      else Except.error err

/-- The one `libc::sendto` invocation `send` performs: buffer length
unchanged, flags 0, destination the stored peer. -/
def sendCall (s : IcmpSocket) (bufLen : Nat) : SendtoCall :=
  { fd := s.fd, len := bufLen, flags := 0, dest := s.peer }

/-- Embedding of `IcmpSocket::send`: call `libc::sendto` through the
oracle and convert with `cvt`; the `?` operator propagates every error
(no special case for interruption), and success maps through `as usize`. -/
def send (s : IcmpSocket) (buf : List Nat) (os : SendtoCall → SysRet) :
    Except IoError Nat :=
  match cvt (os (sendCall s buf.length)) with
  | Except.error e => Except.error e
  | Except.ok ret => Except.ok (usizeOfInt ret)

/-- The one `libc::setsockopt` invocation `set_ttl` performs: level
`IPPROTO_IP`, option `IP_TTL`, payload the given value. -/
def set_ttlCall (s : IcmpSocket) (ttl : Nat) : SetsockoptCall :=
  { fd := s.fd, level := IPPROTO_IP, optname := IP_TTL, value := ttl }

/-- Embedding of `IcmpSocket::set_ttl`: one `setsockopt` call converted
with `cvt`; the `?` operator propagates the error, success yields unit. -/
def set_ttl (s : IcmpSocket) (ttl : Nat) (os : SetsockoptCall → SysRet) :
    Except IoError Unit :=
  match cvt (os (set_ttlCall s ttl)) with
  | Except.error e => Except.error e
  | Except.ok _ => Except.ok ()

/-- The one `libc::getsockopt` invocation `ttl` performs: level
`IPPROTO_IP`, option `IP_TTL`. -/
def ttlCall (s : IcmpSocket) : GetsockoptCall :=
  { fd := s.fd, level := IPPROTO_IP, optname := IP_TTL }

/-- Embedding of `IcmpSocket::ttl`: the slot starts as `mem::zeroed()`,
one `getsockopt` call converted with `cvt`; the `?` operator propagates
the error, and success returns the slot (what the OS wrote, else 0). -/
def ttl (s : IcmpSocket) (os : GetsockoptCall → GetsockoptRet) :
    Except IoError Nat :=
  let r := os (ttlCall s)
  match cvt { ret := r.ret, errno := r.errno } with
  | Except.error e => Except.error e
  | Except.ok _ => Except.ok (r.wrote.getD 0)

/-- The one `libc::close` invocation the `Drop` implementation performs. -/
def dropCall (s : IcmpSocket) : CloseCall :=
  { fd := s.fd }

/-- Embedding of `impl Drop for IcmpSocket`: the body is
`let _ = unsafe { close(self.fd) };` — one close call on the stored
descriptor, its result bound to `_` and hence discarded.  The embedding
returns the list of close calls the body makes together with its (unit)
result. -/
def dropRun (s : IcmpSocket) (os : CloseCall → SysRet) :
    List CloseCall × Unit :=
  let call := dropCall s
  let _ := os call
  ([call], ())

end IcmpSocket

/-- An abstract OS socket-option store: a value for each (level, optname)
pair, used to model the kernel side of the set_ttl / ttl round-trip. -/
def OptStore : Type := Int × Int → Nat

/-- Kernel model: a `setsockopt` call on a live socket is accepted. -/
def optStoreSetRet : SetsockoptCall → SysRet :=
  fun _ => { ret := 0, errno := 0 }

/-- Kernel model: the store after a `setsockopt` call records the value at
the call's (level, optname) pair. -/
def optStoreAfter (st : OptStore) (c : SetsockoptCall) : OptStore :=
  fun p => if p = (c.level, c.optname) then c.value else st p

/-- Kernel model: a `getsockopt` call succeeds and writes the stored value
for the requested (level, optname) pair into the caller's slot. -/
def optStoreGet (st : OptStore) : GetsockoptCall → GetsockoptRet :=
  fun c => { ret := 0, errno := 0, wrote := some (st (c.level, c.optname)) }

/-- The address family the spec prescribes for each variant: the IPv4
family for v4 addresses and the IPv6 family for v6 addresses. -/
def specFamily : IpAddr → Int
  | IpAddr.V4 _ => AF_INET
  | IpAddr.V6 _ => AF_INET6

/-- Helper: the `as usize` cast is the identity on a nonnegative return
value that fits in 64 bits. -/
theorem usizeOfInt_ofNat (n : Nat) (h : n < 2 ^ 64) : usizeOfInt (n : Int) = n := by
  unfold usizeOfInt
  have h64 : (2 : Int) ^ 64 = 18446744073709551616 := by norm_num
  have hn : n < 18446744073709551616 := by
    calc n < 2 ^ 64 := h
    _ = 18446744073709551616 := by norm_num
  omega

/-- C1: connect either fails with an error or returns a socket; when it
returns a socket, both the family passed to the OS `socket` call and the
family tag of the stored peer are the family of the input variant
(AF_INET for v4, AF_INET6 for v6), never a mismatching one. -/
theorem connect_family_matches (addr : IpAddr) (os : SocketCall → SysRet) :
    (∃ e, IcmpSocket.connect addr os = Except.error e) ∨
    (∃ s, IcmpSocket.connect addr os = Except.ok s ∧
      s.peer.sa_family = specFamily addr ∧
      (IcmpSocket.connectCall addr).family = specFamily addr) := by
  by_cases h : (os (IcmpSocket.connectCall addr)).ret = -1
  · left
    refine ⟨{ code := (os (IcmpSocket.connectCall addr)).errno }, ?_⟩
    simp [IcmpSocket.connect, cvt, h]
  · right
    refine ⟨{ fd := (os (IcmpSocket.connectCall addr)).ret,
              peer := addr.into_inner }, ?_, ?_, ?_⟩
    · simp [IcmpSocket.connect, cvt, h]
    · cases addr <;> simp [IpAddr.into_inner, specFamily]
    · cases addr <;> simp [specFamily, IcmpSocket.connectCall]

/-- C2: the protocol argument connect passes to the raw-socket allocation
call is the constant IPv4 ICMP protocol number 1 for every address, v4 or
v6 alike; connect's behaviour only consults the oracle at protocol 1, so
the protocol argument is not a function of the address family. -/
theorem connect_protocol_constant (addr : IpAddr) (os : SocketCall → SysRet) :
    (IcmpSocket.connectCall addr).protocol = IPPROTO_ICMP ∧
    (IcmpSocket.connectCall addr).protocol = 1 ∧
    (∀ b : IpAddr,
      (IcmpSocket.connectCall addr).protocol = (IcmpSocket.connectCall b).protocol) ∧
    IcmpSocket.connect addr os =
      IcmpSocket.connect addr (fun c => os { c with protocol := 1 }) := by
  exact ⟨rfl, rfl, fun b => rfl, rfl⟩

/-- C3: connect fails, carrying the OS error code, exactly when the raw
`socket` call is refused (the -1 sentinel); on refusal no socket value is
produced, and on success the returned socket owns the descriptor the
allocation produced together with the converted peer. -/
theorem connect_error_iff_refused (addr : IpAddr) (os : SocketCall → SysRet) :
    ((os (IcmpSocket.connectCall addr)).ret = -1 →
      IcmpSocket.connect addr os =
        Except.error { code := (os (IcmpSocket.connectCall addr)).errno }) ∧
    ((os (IcmpSocket.connectCall addr)).ret ≠ -1 →
      IcmpSocket.connect addr os =
        Except.ok { fd := (os (IcmpSocket.connectCall addr)).ret,
                    peer := addr.into_inner }) := by
  constructor
  · intro h
    simp [IcmpSocket.connect, cvt, h]
  · intro h
    simp [IcmpSocket.connect, cvt, h]

/-- Witness for C3: with an oracle refusing with errno 13 connect fails
carrying code 13; with an oracle granting descriptor 3 connect returns the
socket owning descriptor 3. -/
theorem connect_error_iff_refused_witness :
    IcmpSocket.connect (IpAddr.V4 0) (fun _ => { ret := -1, errno := 13 }) =
      Except.error { code := 13 } ∧
    IcmpSocket.connect (IpAddr.V4 0) (fun _ => { ret := 3, errno := 0 }) =
      Except.ok { fd := 3, peer := (IpAddr.V4 0).into_inner } :=
  ⟨(connect_error_iff_refused (IpAddr.V4 0) (fun _ => { ret := -1, errno := 13 })).1
      (by decide),
   (connect_error_iff_refused (IpAddr.V4 0) (fun _ => { ret := 3, errno := 0 })).2
      (by decide)⟩

/-- C4: recv's mapping of the underlying call's outcome: a failure of the
interrupted kind becomes a successful 0-byte read (no retry, no error), a
failure of any other kind propagates as the error carrying the OS code,
and a success of n bytes is returned as n. -/
theorem recv_interrupt_policy (s : IcmpSocket) (buf : List Nat)
    (r : SysRet) (n : Nat) :
    (r.ret = -1 → IoError.kind { code := r.errno } = ErrorKind.interrupted →
      IcmpSocket.recv s buf (fun _ => r) = Except.ok 0) ∧
    (r.ret = -1 → IoError.kind { code := r.errno } ≠ ErrorKind.interrupted →
      IcmpSocket.recv s buf (fun _ => r) = Except.error { code := r.errno }) ∧
    (r.ret = (n : Int) → n < 2 ^ 64 →
      IcmpSocket.recv s buf (fun _ => r) = Except.ok n) := by
  refine ⟨?_, ?_, ?_⟩
  · intro h hk
    simp [IcmpSocket.recv, cvt, h, hk]
  · intro h hk
    simp [IcmpSocket.recv, cvt, h, hk]
  · intro h hn
    have hne : r.ret ≠ -1 := by
      rw [h]; omega
    simp [IcmpSocket.recv, cvt, hne, h, usizeOfInt_ofNat n hn]

/-- Witness for C4: on a concrete socket with an empty buffer, an EINTR
failure yields a 0-byte success, an EACCES (13) failure propagates as the
error, and a 5-byte success yields 5. -/
theorem recv_interrupt_policy_witness :
    IcmpSocket.recv { fd := 3, peer := (IpAddr.V4 0).into_inner } []
        (fun _ => { ret := -1, errno := 4 }) = Except.ok 0 ∧
    IcmpSocket.recv { fd := 3, peer := (IpAddr.V4 0).into_inner } []
        (fun _ => { ret := -1, errno := 13 }) = Except.error { code := 13 } ∧
    IcmpSocket.recv { fd := 3, peer := (IpAddr.V4 0).into_inner } []
        (fun _ => { ret := 5, errno := 0 }) = Except.ok 5 :=
  ⟨(recv_interrupt_policy { fd := 3, peer := (IpAddr.V4 0).into_inner } []
      { ret := -1, errno := 4 } 0).1 (by decide) (by decide),
   (recv_interrupt_policy { fd := 3, peer := (IpAddr.V4 0).into_inner } []
      { ret := -1, errno := 13 } 0).2.1 (by decide) (by decide),
   (recv_interrupt_policy { fd := 3, peer := (IpAddr.V4 0).into_inner } []
      { ret := 5, errno := 0 } 5).2.2 (by decide) (by decide)⟩

/-- C5, refuted on the code: on the interrupted early-return path the OS
wrote nothing into the address slot (`peerWrite = none`), yet recv_from
returns the decode of the uninitialized junk the slot happened to hold;
concretely, two different junk values yield two different decoded sender
addresses, so the decoded address is produced from memory the OS call
never wrote. -/
theorem recv_from_decodes_uninitialized (s : IcmpSocket) (buf : List Nat)
    (uninit : sockaddr) :
    IcmpSocket.recv_from s buf uninit
        (fun _ => { ret := -1, errno := EINTR, peerWrite := none }) =
      Except.ok (0, IpAddr.from_inner uninit) ∧
    IcmpSocket.recv_from { fd := 3, peer := (IpAddr.V4 0).into_inner } []
        { sa_family := 2, sa_data := 7 }
        (fun _ => { ret := -1, errno := 4, peerWrite := none }) =
      Except.ok (0, IpAddr.V4 7) ∧
    IcmpSocket.recv_from { fd := 3, peer := (IpAddr.V4 0).into_inner } []
        { sa_family := 10, sa_data := 9 }
        (fun _ => { ret := -1, errno := 4, peerWrite := none }) =
      Except.ok (0, IpAddr.V6 9) := by
  refine ⟨?_, by rfl, by rfl⟩
  simp [IcmpSocket.recv_from, cvt, IoError.kind]

/-- C6: under a failure of the interrupted kind, send propagates the
IoError carrying the OS code, while recv and recv_from under the very same
failure return successful 0-byte results — the asymmetry is real. -/
theorem send_propagates_interrupt (s : IcmpSocket) (buf : List Nat)
    (code : Nat) (uninit : sockaddr)
    (h : IoError.kind { code := code } = ErrorKind.interrupted) :
    IcmpSocket.send s buf (fun _ => { ret := -1, errno := code }) =
      Except.error { code := code } ∧
    IcmpSocket.recv s buf (fun _ => { ret := -1, errno := code }) =
      Except.ok 0 ∧
    IcmpSocket.recv_from s buf uninit
        (fun _ => { ret := -1, errno := code, peerWrite := none }) =
      Except.ok (0, IpAddr.from_inner uninit) := by
  refine ⟨?_, ?_, ?_⟩
  · simp [IcmpSocket.send, cvt]
  · simp [IcmpSocket.recv, cvt, h]
  · simp [IcmpSocket.recv_from, cvt, h]

/-- Witness for C6: with the concrete EINTR code 4 on a concrete socket,
send fails with the error carrying code 4 while recv and recv_from return
0-byte successes. -/
theorem send_propagates_interrupt_witness :
    IcmpSocket.send { fd := 3, peer := (IpAddr.V4 0).into_inner } []
        (fun _ => { ret := -1, errno := 4 }) = Except.error { code := 4 } ∧
    IcmpSocket.recv { fd := 3, peer := (IpAddr.V4 0).into_inner } []
        (fun _ => { ret := -1, errno := 4 }) = Except.ok 0 ∧
    IcmpSocket.recv_from { fd := 3, peer := (IpAddr.V4 0).into_inner } []
        { sa_family := 2, sa_data := 0 }
        (fun _ => { ret := -1, errno := 4, peerWrite := none }) =
      Except.ok (0, IpAddr.from_inner { sa_family := 2, sa_data := 0 }) :=
  send_propagates_interrupt { fd := 3, peer := (IpAddr.V4 0).into_inner } []
    4 { sa_family := 2, sa_data := 0 } (by decide)

/-- C7: against a kernel that faithfully stores socket options, a
successful set_ttl of any value in the TTL option width followed by ttl
returns that same value: the TTL option round-trips through the option
store because both operations address the same (level, optname) pair. -/
theorem ttl_roundtrip (s : IcmpSocket) (st : OptStore) (n : Nat)
    (h : n ≤ 255) :
    IcmpSocket.set_ttl s n optStoreSetRet = Except.ok () ∧
    IcmpSocket.ttl s
        (optStoreGet (optStoreAfter st (IcmpSocket.set_ttlCall s n))) =
      Except.ok n := by
  constructor
  · simp [IcmpSocket.set_ttl, cvt, optStoreSetRet]
  · simp [IcmpSocket.ttl, cvt, optStoreGet, optStoreAfter,
      IcmpSocket.ttlCall, IcmpSocket.set_ttlCall]

/-- Witness for C7: on a concrete socket over the all-zero option store,
set_ttl 64 succeeds and the following ttl returns 64. -/
theorem ttl_roundtrip_witness :
    IcmpSocket.set_ttl { fd := 3, peer := (IpAddr.V4 0).into_inner } 64
        optStoreSetRet = Except.ok () ∧
    IcmpSocket.ttl { fd := 3, peer := (IpAddr.V4 0).into_inner }
        (optStoreGet (optStoreAfter (fun _ => 0)
          (IcmpSocket.set_ttlCall { fd := 3, peer := (IpAddr.V4 0).into_inner }
            64))) = Except.ok 64 :=
  ttl_roundtrip { fd := 3, peer := (IpAddr.V4 0).into_inner } (fun _ => 0) 64
    (by decide)

/-- C8: for every socket — the quantifier covers sockets whose stored peer
has the IPv6 family — set_ttl and ttl pass the IPv4-family option level
`IPPROTO_IP` and option name `IP_TTL` to the OS; the level does not depend
on the socket at all, hence not on its address family. -/
theorem ttl_option_level_constant (s : IcmpSocket) (n : Nat) :
    (IcmpSocket.set_ttlCall s n).level = IPPROTO_IP ∧
    (IcmpSocket.set_ttlCall s n).optname = IP_TTL ∧
    (IcmpSocket.ttlCall s).level = IPPROTO_IP ∧
    (IcmpSocket.ttlCall s).optname = IP_TTL :=
  ⟨rfl, rfl, rfl, rfl⟩

/-- C9: the Drop implementation makes exactly one close call, on the
stored descriptor, unconditionally; and its outcome is the same whatever
the close call returns — the close error is discarded, never surfaced.
The body reads nothing but the descriptor, so prior operation failures
cannot alter it. -/
theorem drop_closes_once (s : IcmpSocket) (os os2 : CloseCall → SysRet) :
    IcmpSocket.dropRun s os = ([{ fd := s.fd }], ()) ∧
    IcmpSocket.dropRun s os = IcmpSocket.dropRun s os2 :=
  ⟨rfl, rfl⟩

/-- C10: each wrapper passes the buffer's length to the system call
unchanged, for every buffer including the empty one; the wrappers behave
on the empty buffer exactly as on any other (no panic, no
wrapper-generated error, no minimum-size check), and a successful OS
result on an empty buffer is mapped as usual. -/
theorem no_min_buffer (s : IcmpSocket) (buf : List Nat) (r : SysRet)
    (rf : RecvfromRet) (uninit : sockaddr) (n : Nat) :
    (IcmpSocket.recvCall s buf.length).len = buf.length ∧
    (IcmpSocket.recv_fromCall s buf.length).len = buf.length ∧
    (IcmpSocket.sendCall s buf.length).len = buf.length ∧
    IcmpSocket.recv s [] (fun _ => r) = IcmpSocket.recv s buf (fun _ => r) ∧
    IcmpSocket.send s [] (fun _ => r) = IcmpSocket.send s buf (fun _ => r) ∧
    IcmpSocket.recv_from s [] uninit (fun _ => rf) =
      IcmpSocket.recv_from s buf uninit (fun _ => rf) ∧
    (n < 2 ^ 64 →
      IcmpSocket.recv s [] (fun _ => { ret := (n : Int), errno := 0 }) =
        Except.ok n ∧
      IcmpSocket.send s [] (fun _ => { ret := (n : Int), errno := 0 }) =
        Except.ok n) := by
  refine ⟨rfl, rfl, rfl, rfl, rfl, rfl, ?_⟩
  intro hn
  have hne : ((n : Int)) ≠ -1 := by omega
  constructor
  · simp [IcmpSocket.recv, cvt, hne, usizeOfInt_ofNat n hn]
  · simp [IcmpSocket.send, cvt, hne, usizeOfInt_ofNat n hn]

/-- Witness for C10: on a concrete socket, a 5-byte success reported by
the OS on a zero-length buffer is returned as 5 by recv and send. -/
theorem no_min_buffer_witness :
    IcmpSocket.recv { fd := 3, peer := (IpAddr.V4 0).into_inner } []
        (fun _ => { ret := (5 : Nat), errno := 0 }) = Except.ok 5 ∧
    IcmpSocket.send { fd := 3, peer := (IpAddr.V4 0).into_inner } []
        (fun _ => { ret := (5 : Nat), errno := 0 }) = Except.ok 5 :=
  (no_min_buffer { fd := 3, peer := (IpAddr.V4 0).into_inner } []
    { ret := 0, errno := 0 } { ret := 0, errno := 0, peerWrite := none }
    { sa_family := 2, sa_data := 0 } 5).2.2.2.2.2.2 (by decide)

end RustIcmp
